import Mathlib

/-!
Shallow embedding of three resource/data-source handler files of the
`terraform-provider-aws` repository:

* `internal/service/elasticbeanstalk/configuration_template.go`
* `internal/service/rds/cluster_snapshot_data_source.go`
* an `internal/service/ec2` file holding the transit-gateway peering
  attachment accepter and transit-gateway route table resources.

Go pointers to strings (`*string`) are modelled as `Option String`,
`time.Time` values as integers, AWS API errors as a record of error code
and message, and each handler as a pure function from an environment
(the results the AWS SDK calls would return) to the trace of calls it
issues together with the diagnostics/state it produces.
-/

/-- `aws.StringValue`: dereference a `*string`, treating nil as `""`. -/
def stringValue : Option String → String
  | some s => s
  | none => ""

/-- Auxiliary: does `sub` occur as a contiguous run inside `l`? -/
def charRunIn (sub : List Char) : List Char → Bool
  | [] => sub.isEmpty
  | c :: rest => sub.isPrefixOf (c :: rest) || charRunIn sub rest

/-- `strings.Contains`-style substring test, used to model
`tfawserr.ErrMessageContains`. -/
def containsSubstr (s sub : String) : Bool :=
  charRunIn sub.toList s.toList

/-- An AWS API error: its code and message
(the part of `awserr.Error` the embedded code inspects). -/
structure ApiError where
  code : String
  message : String
deriving DecidableEq, Repr

/-- `tfawserr.ErrMessageContains`: the (possibly absent) error has the
given code and its message contains the given substring. -/
def errMessageContains (e : Option ApiError) (code msg : String) : Bool :=
  match e with
  | some err => err.code = code && containsSubstr err.message msg
  | none => false

/-- `tfawserr.ErrCodeEquals`: the (possibly absent) error has the given code. -/
def errCodeEquals (e : Option ApiError) (code : String) : Bool :=
  match e with
  | some err => err.code = code
  | none => false

/-! ## Elastic Beanstalk configuration template -/

/-- `elasticbeanstalk.ConfigurationOptionSetting`. -/
structure ConfigurationOptionSetting where
  Namespace : Option String
  OptionName : Option String
  Value : Option String
deriving DecidableEq, Repr

/-- `schema.Set.Difference` on option-setting sets (the set's hash covers
the whole element, so difference is removal of equal elements). -/
def setDifference (xs ys : List ConfigurationOptionSetting) :
    List ConfigurationOptionSetting :=
  xs.filter (fun x => ¬ ys.contains x)

/-- The composite-key comparison at lines 190–191 of
`configuration_template.go`: equal namespace and equal option name,
after `aws.StringValue` dereferencing. -/
def sameKey (r a : ConfigurationOptionSetting) : Bool :=
  stringValue r.Namespace = stringValue a.Namespace &&
    stringValue r.OptionName = stringValue a.OptionName

/-- The nested loop at lines 187–196 of `configuration_template.go` that
builds the `remove` slice: for each `r` in `rm`, for each `a` in `add`,
`continue` when the keys match, otherwise append `r`. -/
def computeRemove (rm add : List ConfigurationOptionSetting) :
    List ConfigurationOptionSetting :=
  rm.foldl
    (fun acc r =>
      add.foldl (fun acc2 a => if sameKey r a then acc2 else acc2 ++ [r]) acc)
    []

/-- The removals the surrounding comment (lines 179–186) and the spec
describe: the old-minus-new settings whose composite key does not occur
among the additions, each taken once. -/
def specOptionsToRemove (rm add : List ConfigurationOptionSetting) :
    List ConfigurationOptionSetting :=
  rm.filter (fun r => ¬ add.any (fun a => sameKey r a))

/-- The pair (OptionsToRemove source list, OptionSettings to add) computed
by `resourceConfigurationTemplateOptionSettingsUpdate` from the old and
new setting sets (lines 165–209). -/
def optionSettingsUpdatePlan (old new : List ConfigurationOptionSetting) :
    List ConfigurationOptionSetting × List ConfigurationOptionSetting :=
  let rm := setDifference old new
  let add := setDifference new old
  (computeRemove rm add, add)


/-- The Elastic Beanstalk API calls the configuration-template handlers
can issue, recorded as a trace. -/
inductive EBCall where
  | updateTemplateDescription (description : String)
  | validateConfigurationSettings (settings : List ConfigurationOptionSetting)
  | updateTemplateOptionSettings
      (add : List ConfigurationOptionSetting)
      (remove : List (Option String × Option String))
  | readBack
deriving DecidableEq, Repr

/-- Is the call an `UpdateConfigurationTemplate` API call (either the
description-only one or the option-settings one)? -/
def EBCall.isUpdateTemplate : EBCall → Bool
  | .updateTemplateDescription _ => true
  | .updateTemplateOptionSettings _ _ => true
  | _ => false

/-- Is the call a `ValidateConfigurationSettings` API call? -/
def EBCall.isValidate : EBCall → Bool
  | .validateConfigurationSettings _ => true
  | _ => false

/-- Is the call the description-carrying `UpdateConfigurationTemplate`? -/
def EBCall.isDescriptionUpdate : EBCall → Bool
  | .updateTemplateDescription _ => true
  | _ => false

/-- Is the call part of the option-settings update step (its validation
call or its `UpdateConfigurationTemplate` call)? -/
def EBCall.isOptionSettingsStep : EBCall → Bool
  | .validateConfigurationSettings _ => true
  | .updateTemplateOptionSettings _ _ => true
  | _ => false

/-- Environment for `resourceConfigurationTemplateOptionSettingsUpdate`:
the answers `d.HasChange("setting")`, `gatherOptionSettings(d)` and
`d.GetChange("setting")` would give, plus the results the two SDK calls
would return (`none` = nil error). -/
structure OptionSettingsUpdateEnv where
  hasChangeSetting : Bool
  gathered : List ConfigurationOptionSetting
  oldSet : List ConfigurationOptionSetting
  newSet : List ConfigurationOptionSetting
  validateResult : Option ApiError
  updateResult : Option ApiError
deriving Repr

/-- `resourceConfigurationTemplateOptionSettingsUpdate` (lines 154–218):
validate the gathered settings, then send the add/remove plan; returns
the trace of calls issued and the error returned, if any. -/
def resourceConfigurationTemplateOptionSettingsUpdate
    (env : OptionSettingsUpdateEnv) : List EBCall × Option ApiError :=
  if env.hasChangeSetting then
    match env.validateResult with
    | some e => ([.validateConfigurationSettings env.gathered], some e)
    | none =>
      let plan := optionSettingsUpdatePlan env.oldSet env.newSet
      ([.validateConfigurationSettings env.gathered,
        .updateTemplateOptionSettings plan.2
          (plan.1.map (fun elem => (elem.Namespace, elem.OptionName)))],
        env.updateResult)
  else ([], none)

/-- `resourceConfigurationTemplateDescriptionUpdate` (lines 144–152):
one `UpdateConfigurationTemplate` call carrying the description. -/
def resourceConfigurationTemplateDescriptionUpdate
    (description : String) (callResult : Option ApiError) :
    List EBCall × Option ApiError :=
  ([.updateTemplateDescription description], callResult)

/-- Environment for `resourceConfigurationTemplateUpdate`. -/
structure ConfigurationTemplateUpdateEnv where
  hasChangeDescription : Bool
  description : String
  descriptionUpdateResult : Option ApiError
  osEnv : OptionSettingsUpdateEnv
deriving Repr

/-- `resourceConfigurationTemplateUpdate` (lines 123–142): run the
description update when the description changed, then the
option-settings update when the setting changed, then the read-back;
an error at either step appends a diagnostic and returns early. -/
def resourceConfigurationTemplateUpdate
    (env : ConfigurationTemplateUpdateEnv) : List EBCall × List String :=
  let step1 : List EBCall × Option ApiError :=
    if env.hasChangeDescription then
      resourceConfigurationTemplateDescriptionUpdate env.description
        env.descriptionUpdateResult
    else ([], none)
  match step1.2 with
  | some e =>
    (step1.1, ["updating Elastic Beanstalk Configuration Template: " ++ e.message])
  | none =>
    let step2 : List EBCall × Option ApiError :=
      if env.osEnv.hasChangeSetting then
        resourceConfigurationTemplateOptionSettingsUpdate env.osEnv
      else ([], none)
    match step2.2 with
    | some e =>
      (step1.1 ++ step2.1,
        ["updating Elastic Beanstalk Configuration Template: " ++ e.message])
    | none => (step1.1 ++ step2.1 ++ [.readBack], [])

/-- The piece of `*schema.ResourceData` local state the create handlers
touch: the resource id (`none` = not set). -/
structure ResourceState where
  id : Option String
deriving DecidableEq, Repr

/-- Environment for `resourceConfigurationTemplateCreate`. -/
structure ConfigurationTemplateCreateEnv where
  name : String
  createResult : Option ApiError
  readBackDiags : List String
deriving Repr

/-- `resourceConfigurationTemplateCreate` (lines 61–97): issue the
create call; on error append a diagnostic and return with the state
untouched; on success set the id to the template name and run the
read-back. -/
def resourceConfigurationTemplateCreate
    (env : ConfigurationTemplateCreateEnv) (s : ResourceState) :
    ResourceState × List String :=
  match env.createResult with
  | some e =>
    (s, ["creating Elastic Beanstalk configuration template: " ++ e.message])
  | none => ({ id := some env.name }, env.readBackDiags)

/-- `elasticbeanstalk.ConfigurationSettingsDescription` (the fields the
read handler copies back). -/
structure ConfigurationSettingsDescription where
  ApplicationName : Option String
  TemplateName : Option String
  Description : Option String
  SolutionStackName : Option String
deriving DecidableEq, Repr

/-- `elasticbeanstalk.DescribeConfigurationSettingsOutput`; the slice
elements are pointers, hence `Option`. -/
structure DescribeConfigurationSettingsOutput where
  ConfigurationSettings : List (Option ConfigurationSettingsDescription)
deriving DecidableEq, Repr

/-- The error classes `FindConfigurationSettingsByTwoPartKey` can return:
`resource.NotFoundError`, a propagated API error,
`tfresource.NewEmptyResultError`, `tfresource.NewTooManyResultsError`. -/
inductive FindError where
  | notFound (lastError : Option ApiError)
  | api (e : ApiError)
  | emptyResult
  | tooManyResults (count : Nat)
deriving DecidableEq, Repr

/-- `FindConfigurationSettingsByTwoPartKey` (lines 236–264), as a function
of the result of the `DescribeConfigurationSettings` call (`.error e` =
the call failed with `e`; `.ok none` = nil output). -/
def FindConfigurationSettingsByTwoPartKey
    (r : Except ApiError (Option DescribeConfigurationSettingsOutput)) :
    Except FindError ConfigurationSettingsDescription :=
  let err : Option ApiError := match r with | .error e => some e | .ok _ => none
  if errMessageContains err "InvalidParameterValue" "No Configuration Template named" ||
      errMessageContains err "InvalidParameterValue" "No Application named" then
    .error (.notFound err)
  else
    match r with
    | .error e => .error (.api e)
    | .ok none => .error .emptyResult
    | .ok (some output) =>
      match output.ConfigurationSettings with
      | [] => .error .emptyResult
      | none :: _ => .error .emptyResult
      | some first :: rest =>
        if rest.length + 1 > 1 then .error (.tooManyResults (rest.length + 1))
        else .ok first

/-- The behaviour C4 ascribes to `FindConfigurationSettingsByTwoPartKey`,
written from the spec's words, to be compared with the embedding above. -/
def findConfigurationSettingsSpec
    (r : Except ApiError (Option DescribeConfigurationSettingsOutput)) :
    Except FindError ConfigurationSettingsDescription :=
  match r with
  | .error e =>
    if e.code = "InvalidParameterValue" &&
        (containsSubstr e.message "No Configuration Template named" ||
          containsSubstr e.message "No Application named") then
      .error (.notFound (some e))
    else .error (.api e)
  | .ok none => .error .emptyResult
  | .ok (some output) =>
    match output.ConfigurationSettings with
    | [] => .error .emptyResult
    | none :: _ => .error .emptyResult
    | some first :: rest =>
      if rest.length = 0 then .ok first
      else .error (.tooManyResults (rest.length + 1))

/-! ## RDS cluster snapshot data source -/

/-- `rds.DBClusterSnapshot`: the identifier and the creation time
(`*time.Time`, modelled as an optional integer timestamp). -/
structure DBClusterSnapshot where
  DBClusterSnapshotIdentifier : Option String
  SnapshotCreateTime : Option Int
deriving DecidableEq, Repr

/-- `rdsClusterSnapshotSort.Less` (lines 204–214): a nil creation time on
the left sorts first; a nil creation time on the right does not; two
present times compare with `time.Time.Before`. -/
def snapshotLess (a b : DBClusterSnapshot) : Bool :=
  match a.SnapshotCreateTime with
  | none => true
  | some ta =>
    match b.SnapshotCreateTime with
    | none => false
    | some tb => decide (ta < tb)

/-- One step of the comparison sort `sort.Sort` performs with
`rdsClusterSnapshotSort.Less`: insert an element into an already
processed list, before the first element it compares less than. -/
def insertSnapshot (x : DBClusterSnapshot) :
    List DBClusterSnapshot → List DBClusterSnapshot
  | [] => [x]
  | y :: ys => if snapshotLess x y then x :: y :: ys else y :: insertSnapshot x ys

/-- `sort.Sort(rdsClusterSnapshotSort(...))` at line 218, modelled as the
insertion sort over `snapshotLess` (Go's `sort.Sort` is an in-place
comparison sort over the same `Less`; its insertion-sort base case moves
each element left exactly while `Less` holds against its predecessor). -/
def sortSnapshots : List DBClusterSnapshot → List DBClusterSnapshot
  | [] => []
  | x :: xs => insertSnapshot x (sortSnapshots xs)

/-- `mostRecentClusterSnapshot` (lines 216–220): sort, then take index
`len-1`. The index is out of bounds for an empty slice (a runtime
panic), modelled by `none`. -/
def mostRecentClusterSnapshot (snapshots : List DBClusterSnapshot) :
    Option DBClusterSnapshot :=
  (sortSnapshots snapshots).getLast?

/-- Environment for `dataSourceClusterSnapshotRead`: the `GetOk` results
for the two identifiers, the `most_recent` flag, and the results the
`DescribeDBClusterSnapshots` and `ListTags` calls would return. -/
structure ClusterSnapshotReadEnv where
  clusterIdentifier : Option String
  snapshotIdentifier : Option String
  mostRecent : Bool
  describeResult : Except ApiError (List DBClusterSnapshot)
  listTagsResult : Except ApiError (List (String × String))
deriving Repr

/-- What a run of the data-source read produced: the computed attributes
set (by name, in order), the snapshot selected (`none` when the read
errored before selecting), and the error diagnostic, if any. -/
structure ClusterSnapshotReadResult where
  setAttrs : List String
  selected : Option DBClusterSnapshot
  errorDiag : Option String
deriving DecidableEq, Repr

/-- The computed attributes lines 166–185 set for a selected snapshot
(`snapshot_create_time` only when the creation time is non-nil). -/
def clusterSnapshotAttrs (s : DBClusterSnapshot) : List String :=
  ["allocated_storage", "availability_zones", "db_cluster_identifier",
    "db_cluster_snapshot_arn", "db_cluster_snapshot_identifier", "engine",
    "engine_version", "kms_key_id", "license_model", "port"] ++
  (if s.SnapshotCreateTime.isSome then ["snapshot_create_time"] else []) ++
  ["snapshot_type", "source_db_cluster_snapshot_arn", "status",
    "storage_encrypted", "vpc_id"]

/-- The snapshot-selection block at lines 152–163: on more than one
result, use `mostRecentClusterSnapshot` when `most_recent` is set and
error otherwise; otherwise take element 0 (an out-of-bounds index — a
runtime panic — when the slice is empty, modelled as an error). -/
def selectClusterSnapshot (snaps : List DBClusterSnapshot) (recent : Bool) :
    Except String DBClusterSnapshot :=
  if snaps.length > 1 then
    if recent then
      match mostRecentClusterSnapshot snaps with
      | some s => .ok s
      | none => .error "runtime error: index out of range"
    else
      .error "Your query returned more than one result. Please try a more specific search criteria."
  else
    match snaps.head? with
    | some s => .ok s
    | none => .error "runtime error: index out of range"

/-- `dataSourceClusterSnapshotRead` (lines 116–198): require one of the
two identifiers, issue the describe call, then select a snapshot —
error on zero results; on more than one, use `mostRecentClusterSnapshot`
when `most_recent` is set and error otherwise; take the single element
when there is exactly one — and finally set the computed attributes and
the tags. -/
def dataSourceClusterSnapshotRead (env : ClusterSnapshotReadEnv) :
    ClusterSnapshotReadResult :=
  if env.clusterIdentifier.isNone && env.snapshotIdentifier.isNone then
    ⟨[], none,
      some "One of db_cluster_snapshot_identifier or db_cluster_identifier must be assigned"⟩
  else
    match env.describeResult with
    | .error e => ⟨[], none, some ("reading RDS Cluster Snapshot: " ++ e.message)⟩
    | .ok snaps =>
      if snaps.length < 1 then
        ⟨[], none,
          some "Your query returned no results. Please change your search criteria and try again."⟩
      else
        match selectClusterSnapshot snaps env.mostRecent with
        | .error msg => ⟨[], none, some msg⟩
        | .ok s =>
          match env.listTagsResult with
          | .error e =>
            ⟨clusterSnapshotAttrs s, some s,
              some ("listing tags for RDS DB Cluster Snapshot: " ++ e.message)⟩
          | .ok _ => ⟨clusterSnapshotAttrs s ++ ["tags"], some s, none⟩

/-! ## EC2 transit gateway resources -/

/-- The steps a transit-gateway delete handler can take. -/
inductive DeleteStep where
  | deleteCall
  | waitForDeletion
deriving DecidableEq, Repr

/-- Modelled from the spec: the constant
`errCodeInvalidTransitGatewayAttachmentIDNotFound` is declared in an
`internal/service/ec2` errors file that is not part of this excerpt; it
names the attachment-id-not-found API error code. -/
def errCodeInvalidTransitGatewayAttachmentIDNotFound : String :=
  "InvalidTransitGatewayAttachmentID.NotFound"

/-- Modelled from the spec: the constant `errCodeInvalidRouteTableIDNotFound`
is declared in an `internal/service/ec2` errors file that is not part of
this excerpt; it names the route-table-id-not-found API error code. -/
def errCodeInvalidRouteTableIDNotFound : String :=
  "InvalidRouteTableID.NotFound"

/-- Environment for the two transit-gateway delete handlers: the results
of the delete API call and of the wait-for-deletion helper. -/
structure DeleteEnv where
  deleteResult : Option ApiError
  waitResult : Option ApiError
deriving Repr

/-- `resourceTransitGatewayPeeringAttachmentAccepterDelete`
(part_000 lines 153–175): delete; treat the attachment-id-not-found code
as success and skip the wait; otherwise propagate errors, then wait. -/
def resourceTransitGatewayPeeringAttachmentAccepterDelete (env : DeleteEnv) :
    List DeleteStep × List String :=
  if errCodeEquals env.deleteResult errCodeInvalidTransitGatewayAttachmentIDNotFound then
    ([.deleteCall], [])
  else
    match env.deleteResult with
    | some e =>
      ([.deleteCall], ["deleting EC2 Transit Gateway Peering Attachment: " ++ e.message])
    | none =>
      match env.waitResult with
      | some e =>
        ([.deleteCall, .waitForDeletion],
          ["waiting for EC2 Transit Gateway Peering Attachment delete: " ++ e.message])
      | none => ([.deleteCall, .waitForDeletion], [])

/-- `resourceTransitGatewayRouteTableDelete` (part_000 lines 321–343):
delete; treat the route-table-id-not-found code as success and skip the
wait; otherwise propagate errors, then wait. -/
def resourceTransitGatewayRouteTableDelete (env : DeleteEnv) :
    List DeleteStep × List String :=
  if errCodeEquals env.deleteResult errCodeInvalidRouteTableIDNotFound then
    ([.deleteCall], [])
  else
    match env.deleteResult with
    | some e =>
      ([.deleteCall], ["deleting EC2 Transit Gateway Route Table: " ++ e.message])
    | none =>
      match env.waitResult with
      | some e =>
        ([.deleteCall, .waitForDeletion],
          ["waiting for EC2 Transit Gateway Route Table delete: " ++ e.message])
      | none => ([.deleteCall, .waitForDeletion], [])

/-- Environment for `resourceTransitGatewayPeeringAttachmentAccepterCreate`:
the accept-call result (carrying the returned attachment id on success),
the wait result, the merged tags and the tagging-call result. -/
structure AccepterCreateEnv where
  attachmentId : String
  acceptResult : Except ApiError (Option String)
  waitResult : Option ApiError
  tags : List (String × String)
  createTagsResult : Option ApiError
  readBackDiags : List String
deriving Repr

/-- `resourceTransitGatewayPeeringAttachmentAccepterCreate`
(part_000 lines 60–91): issue the accept call; on error append a
diagnostic and return with the state untouched; on success set the id
from the response, wait, tag when tags are present, and read back. -/
def resourceTransitGatewayPeeringAttachmentAccepterCreate
    (env : AccepterCreateEnv) (s : ResourceState) : ResourceState × List String :=
  match env.acceptResult with
  | .error e =>
    (s, ["accepting EC2 Transit Gateway Peering Attachment: " ++ e.message])
  | .ok outId =>
    let s2 : ResourceState := { id := some (stringValue outId) }
    match env.waitResult with
    | some e =>
      (s2, ["waiting for EC2 Transit Gateway Peering Attachment update: " ++ e.message])
    | none =>
      if env.tags.length > 0 then
        match env.createTagsResult with
        | some e =>
          (s2, ["updating EC2 Transit Gateway Peering Attachment tags: " ++ e.message])
        | none => (s2, env.readBackDiags)
      else (s2, env.readBackDiags)

/-- `g` bounds from above every present creation time in `l`. -/
def timeUB (g : DBClusterSnapshot) (l : List DBClusterSnapshot) : Prop :=
  ∀ x ∈ l, ∀ t : Int, x.SnapshotCreateTime = some t →
    ∃ tg, g.SnapshotCreateTime = some tg ∧ t ≤ tg

/-! ## Lemmas about the snapshot sort -/

theorem insertSnapshot_ne_nil (x : DBClusterSnapshot) (l : List DBClusterSnapshot) :
    insertSnapshot x l ≠ [] := by
  cases l with
  | nil => simp [insertSnapshot]
  | cons y ys =>
    simp only [insertSnapshot]
    split <;> simp

theorem mem_insertSnapshot {z x : DBClusterSnapshot} {l : List DBClusterSnapshot} :
    z ∈ insertSnapshot x l ↔ z = x ∨ z ∈ l := by
  induction l with
  | nil => simp [insertSnapshot]
  | cons y ys ih =>
    simp only [insertSnapshot]
    split
    · simp [List.mem_cons]
    · simp only [List.mem_cons, ih]
      tauto

theorem mem_sortSnapshots {z : DBClusterSnapshot} {l : List DBClusterSnapshot} :
    z ∈ sortSnapshots l ↔ z ∈ l := by
  induction l with
  | nil => simp [sortSnapshots]
  | cons x xs ih => simp [sortSnapshots, mem_insertSnapshot, ih]

theorem sortSnapshots_eq_nil {l : List DBClusterSnapshot} :
    sortSnapshots l = [] ↔ l = [] := by
  cases l with
  | nil => simp [sortSnapshots]
  | cons x xs =>
    simp only [sortSnapshots]
    exact ⟨fun h => absurd h (insertSnapshot_ne_nil x (sortSnapshots xs)),
      fun h => nomatch h⟩

theorem length_insertSnapshot (x : DBClusterSnapshot) (l : List DBClusterSnapshot) :
    (insertSnapshot x l).length = l.length + 1 := by
  induction l with
  | nil => simp [insertSnapshot]
  | cons y ys ih =>
    simp only [insertSnapshot]
    split <;> simp [ih]

theorem length_sortSnapshots (l : List DBClusterSnapshot) :
    (sortSnapshots l).length = l.length := by
  induction l with
  | nil => rfl
  | cons x xs ih => simp [sortSnapshots, length_insertSnapshot, ih]

theorem snapshotLess_of_none {a b : DBClusterSnapshot}
    (h : a.SnapshotCreateTime = none) : snapshotLess a b = true := by
  simp [snapshotLess, h]

theorem snapshotLess_true_some {a b : DBClusterSnapshot} {ta : Int}
    (ha : a.SnapshotCreateTime = some ta) (h : snapshotLess a b = true) :
    ∃ tb, b.SnapshotCreateTime = some tb ∧ ta < tb := by
  unfold snapshotLess at h
  rw [ha] at h
  cases hb : b.SnapshotCreateTime with
  | none => rw [hb] at h; simp at h
  | some tb =>
    rw [hb] at h
    exact ⟨tb, rfl, by simpa using h⟩

theorem snapshotLess_false_some {a b : DBClusterSnapshot} {ta tb : Int}
    (ha : a.SnapshotCreateTime = some ta) (hb : b.SnapshotCreateTime = some tb)
    (h : snapshotLess a b = false) : tb ≤ ta := by
  unfold snapshotLess at h
  rw [ha, hb] at h
  simp at h
  omega

theorem getLast_insertSnapshot (x : DBClusterSnapshot) (l : List DBClusterSnapshot) :
    ((insertSnapshot x l).getLast? = l.getLast? ∧ ∃ y ∈ l, snapshotLess x y = true) ∨
      ((insertSnapshot x l).getLast? = some x ∧ ∀ y ∈ l, snapshotLess x y = false) := by
  induction l with
  | nil => right; simp [insertSnapshot]
  | cons y ys ih =>
    simp only [insertSnapshot]
    by_cases h : snapshotLess x y = true
    · rw [if_pos h]
      left
      exact ⟨List.getLast?_cons_cons, y, List.mem_cons_self y ys, h⟩
    · rw [if_neg h]
      have hne := insertSnapshot_ne_nil x ys
      have hcons : ∀ (l2 : List DBClusterSnapshot), l2 ≠ [] →
          (y :: l2).getLast? = l2.getLast? := by
        intro l2 hl2
        cases l2 with
        | nil => exact absurd rfl hl2
        | cons a as => exact List.getLast?_cons_cons
      rcases ih with ⟨h1, y2, hy2, hless⟩ | ⟨h1, hall⟩
      · left
        have hys : ys ≠ [] := by
          intro hnil; rw [hnil] at hy2; exact absurd hy2 (List.not_mem_nil y2)
        refine ⟨?_, y2, List.mem_cons_of_mem y hy2, hless⟩
        rw [hcons _ hne, h1, hcons _ hys]
      · right
        refine ⟨by rw [hcons _ hne, h1], ?_⟩
        intro z hz
        rcases List.mem_cons.mp hz with hzy | hzys
        · rw [hzy]; exact Bool.not_eq_true _ ▸ (by simpa using h)
        · exact hall z hzys

theorem timeUB_getLast_sortSnapshots :
    ∀ (l : List DBClusterSnapshot) (g : DBClusterSnapshot),
      (sortSnapshots l).getLast? = some g → timeUB g l := by
  intro l
  induction l with
  | nil => intro g hg; cases hg
  | cons x xs ih =>
    intro g hg
    rw [show sortSnapshots (x :: xs) = insertSnapshot x (sortSnapshots xs) from rfl] at hg
    rcases getLast_insertSnapshot x (sortSnapshots xs) with ⟨h1, y, hy, hless⟩ | ⟨h1, hall⟩
    · rw [h1] at hg
      have hub : timeUB g xs := ih g hg
      intro z hz t ht
      rcases List.mem_cons.mp hz with hzx | hzxs
      · subst hzx
        obtain ⟨ty, hty, hlt⟩ := snapshotLess_true_some ht hless
        obtain ⟨tg, htg, hle⟩ := hub y (mem_sortSnapshots.mp hy) ty hty
        exact ⟨tg, htg, le_of_lt (lt_of_lt_of_le hlt hle)⟩
      · exact hub z hzxs t ht
    · rw [h1] at hg
      injection hg with hg
      subst hg
      intro z hz t ht
      rcases List.mem_cons.mp hz with hzx | hzxs
      · subst hzx; exact ⟨t, ht, le_refl t⟩
      · have hxs : xs ≠ [] := by
          intro hnil; rw [hnil] at hzxs; exact absurd hzxs (List.not_mem_nil z)
        have hsort : sortSnapshots xs ≠ [] := by
          rw [Ne, sortSnapshots_eq_nil]; exact hxs
        obtain ⟨g2, hg2⟩ := Option.isSome_iff_exists.mp (List.getLast?_isSome.mpr hsort)
        have hg2mem : g2 ∈ sortSnapshots xs :=
          List.mem_of_mem_getLast? (by rw [hg2]; exact Option.mem_some_iff.mpr rfl)
        obtain ⟨t2, ht2, hle2⟩ := ih g2 hg2 z hzxs t ht
        have hfalse : snapshotLess x g2 = false := hall g2 hg2mem
        cases hx : x.SnapshotCreateTime with
        | none => rw [snapshotLess_of_none hx] at hfalse; cases hfalse
        | some tx =>
          have := snapshotLess_false_some hx ht2 hfalse
          exact ⟨tx, rfl, le_trans hle2 this⟩

/-! ## Claim theorems: RDS cluster snapshot -/

/-- C2: for every non-empty list of cluster snapshots,
`mostRecentClusterSnapshot` returns a snapshot whose creation time is
greater than or equal to every non-nil creation time in the list
(nil creation times sort least and impose no constraint). -/
theorem C2_mostRecentClusterSnapshot_max (l : List DBClusterSnapshot)
    (h : l ≠ []) :
    ∃ s, mostRecentClusterSnapshot l = some s ∧
      ∀ x ∈ l, ∀ t : Int, x.SnapshotCreateTime = some t →
        ∃ ts, s.SnapshotCreateTime = some ts ∧ t ≤ ts := by
  have hs : sortSnapshots l ≠ [] := by rw [Ne, sortSnapshots_eq_nil]; exact h
  obtain ⟨s, hsome⟩ := Option.isSome_iff_exists.mp (List.getLast?_isSome.mpr hs)
  exact ⟨s, hsome, timeUB_getLast_sortSnapshots l s hsome⟩

/-- Witness for C2 at a concrete three-snapshot list. -/
theorem C2_witness :
    ∃ s, mostRecentClusterSnapshot
        [⟨some "early", some 1⟩, ⟨some "pending", none⟩, ⟨some "late", some 5⟩]
          = some s ∧
      ∀ x ∈ ([⟨some "early", some 1⟩, ⟨some "pending", none⟩,
          ⟨some "late", some 5⟩] : List DBClusterSnapshot),
        ∀ t : Int, x.SnapshotCreateTime = some t →
          ∃ ts, s.SnapshotCreateTime = some ts ∧ t ≤ ts :=
  C2_mostRecentClusterSnapshot_max
    [⟨some "early", some 1⟩, ⟨some "pending", none⟩, ⟨some "late", some 5⟩]
    (by decide)

/-- C8: `rdsClusterSnapshotSort.Less` answers `true` in both argument
orders on two nil-creation-time snapshots, so it is not asymmetric and
is not a strict weak ordering. -/
theorem C8_snapshotLess_not_asymmetric :
    (∀ a b : DBClusterSnapshot, a.SnapshotCreateTime = none →
      b.SnapshotCreateTime = none →
      snapshotLess a b = true ∧ snapshotLess b a = true) ∧
    ¬ (∀ a b : DBClusterSnapshot,
      snapshotLess a b = true → snapshotLess b a = false) := by
  constructor
  · intro a b ha hb
    exact ⟨snapshotLess_of_none ha, snapshotLess_of_none hb⟩
  · intro hasym
    have h1 : snapshotLess ⟨none, none⟩ ⟨none, none⟩ = true := by decide
    have h2 := hasym ⟨none, none⟩ ⟨none, none⟩ h1
    rw [h1] at h2
    cases h2

/-- Witness for C8 at two concrete nil-timestamp snapshots. -/
theorem C8_witness :
    snapshotLess ⟨some "s1", none⟩ ⟨some "s2", none⟩ = true ∧
      snapshotLess ⟨some "s2", none⟩ ⟨some "s1", none⟩ = true :=
  C8_snapshotLess_not_asymmetric.1 ⟨some "s1", none⟩ ⟨some "s2", none⟩ rfl rfl

theorem selectClusterSnapshot_no_panic {snaps : List DBClusterSnapshot}
    {recent : Bool} (h : 1 ≤ snaps.length) :
    selectClusterSnapshot snaps recent ≠
      Except.error "runtime error: index out of range" := by
  have hne : snaps ≠ [] := by
    intro h0; rw [h0] at h; simp at h
  unfold selectClusterSnapshot
  split
  · split
    · cases hm : mostRecentClusterSnapshot snaps with
      | some s => intro hc; cases hc
      | none =>
        have hsome : (mostRecentClusterSnapshot snaps).isSome := by
          unfold mostRecentClusterSnapshot
          exact List.getLast?_isSome.mpr (by rw [Ne, sortSnapshots_eq_nil]; exact hne)
        rw [hm] at hsome
        cases hsome
    · intro hc
      exact absurd (Except.error.inj hc) (by decide)
  · cases snaps with
    | nil => exact absurd rfl hne
    | cons s rest => intro hc; cases hc

theorem append_ne_of_unrelated_head {p q : String} (m : String)
    (h : ¬ p.data <+: q.data) : p ++ m ≠ q := by
  intro he
  apply h
  rw [← he, String.data_append]
  exact List.prefix_append _ _

/-- C9: `mostRecentClusterSnapshot` returns an element of its input and
is the sorted list indexed at length minus one, which is out of bounds
(`none`) for the empty list; the data-source read only reaches it behind
the more-than-one-snapshot check, under which it always succeeds, so the
read never surfaces the out-of-bounds case. -/
theorem C9_mostRecent_membership_and_guard :
    (∀ (l : List DBClusterSnapshot) (s : DBClusterSnapshot),
        mostRecentClusterSnapshot l = some s → s ∈ l) ∧
    (∀ l : List DBClusterSnapshot,
        mostRecentClusterSnapshot l = (sortSnapshots l)[l.length - 1]?) ∧
    mostRecentClusterSnapshot [] = none ∧
    (∀ (env : ClusterSnapshotReadEnv) (snaps : List DBClusterSnapshot),
        env.describeResult = .ok snaps → 1 < snaps.length →
        (mostRecentClusterSnapshot snaps).isSome = true) ∧
    (∀ env : ClusterSnapshotReadEnv,
        (dataSourceClusterSnapshotRead env).errorDiag ≠
          some "runtime error: index out of range") := by
  refine ⟨?_, ?_, rfl, ?_, ?_⟩
  · intro l s h
    unfold mostRecentClusterSnapshot at h
    exact mem_sortSnapshots.mp (List.mem_of_mem_getLast? (Option.mem_def.mpr h))
  · intro l
    unfold mostRecentClusterSnapshot
    rw [List.getLast?_eq_getElem?, length_sortSnapshots]
  · intro env snaps _ hlen
    unfold mostRecentClusterSnapshot
    refine List.getLast?_isSome.mpr ?_
    rw [Ne, sortSnapshots_eq_nil]
    intro h0
    rw [h0] at hlen
    simp at hlen
  · intro env
    unfold dataSourceClusterSnapshotRead
    split
    · decide
    · split
      · next e _ =>
        simp only [ClusterSnapshotReadResult.mk.injEq, ne_eq, Option.some.injEq]
        intro hc
        exact absurd hc (append_ne_of_unrelated_head e.message (by decide))
      · next snaps _ =>
        split
        · decide
        · next hlen =>
          have hlen1 : 1 ≤ snaps.length := by omega
          split
          · next msg hsel =>
            simp only [ne_eq, Option.some.injEq]
            intro hc
            rw [hc] at hsel
            exact selectClusterSnapshot_no_panic hlen1 hsel
          · next s hsel =>
            split
            · next e _ =>
              simp only [ne_eq, Option.some.injEq]
              intro hc
              exact absurd hc (append_ne_of_unrelated_head e.message (by decide))
            · simp

theorem dataSourceRead_cases (env : ClusterSnapshotReadEnv)
    (snaps : List DBClusterSnapshot)
    (hid : (env.clusterIdentifier.isNone && env.snapshotIdentifier.isNone) = false)
    (hdesc : env.describeResult = .ok snaps) (hlen : ¬ snaps.length < 1) :
    (∀ msg, selectClusterSnapshot snaps env.mostRecent = .error msg →
      dataSourceClusterSnapshotRead env = ⟨[], none, some msg⟩) ∧
    (∀ s, selectClusterSnapshot snaps env.mostRecent = .ok s →
      (dataSourceClusterSnapshotRead env).selected = some s) := by
  unfold dataSourceClusterSnapshotRead
  rw [hdesc, hid]
  simp only [Bool.false_eq_true, if_false]
  constructor
  · intro msg hsel
    rw [if_neg hlen, hsel]
  · intro s hsel
    cases hres : env.listTagsResult with
    | error e => rw [if_neg hlen, hsel]
    | ok tags => rw [if_neg hlen, hsel]

/-- C3: with more than one snapshot in the describe response, the read
selects via `mostRecentClusterSnapshot` exactly when `most_recent` is
set and otherwise errors with no attribute set; with exactly one it
takes that one regardless of the flag; with zero it errors. -/
theorem C3_dataSourceClusterSnapshotRead_selection
    (env : ClusterSnapshotReadEnv) (snaps : List DBClusterSnapshot)
    (hident : env.clusterIdentifier.isSome = true ∨
      env.snapshotIdentifier.isSome = true)
    (hdesc : env.describeResult = .ok snaps) :
    (1 < snaps.length →
      (env.mostRecent = true →
        (dataSourceClusterSnapshotRead env).selected =
          mostRecentClusterSnapshot snaps) ∧
      (env.mostRecent = false →
        dataSourceClusterSnapshotRead env =
          ⟨[], none,
            some "Your query returned more than one result. Please try a more specific search criteria."⟩)) ∧
    (snaps.length = 1 →
      (dataSourceClusterSnapshotRead env).selected = snaps.head?) ∧
    (snaps.length = 0 →
      dataSourceClusterSnapshotRead env =
        ⟨[], none,
          some "Your query returned no results. Please change your search criteria and try again."⟩) := by
  have hid : (env.clusterIdentifier.isNone && env.snapshotIdentifier.isNone) = false := by
    rcases hident with h | h
    · rcases Option.isSome_iff_exists.mp h with ⟨v, hv⟩
      simp [hv]
    · rcases Option.isSome_iff_exists.mp h with ⟨v, hv⟩
      simp [hv]
  refine ⟨?_, ?_, ?_⟩
  · intro hlen
    have hnl : ¬ snaps.length < 1 := by omega
    obtain ⟨herr, hok⟩ := dataSourceRead_cases env snaps hid hdesc hnl
    constructor
    · intro hrec
      have hne : snaps ≠ [] := by
        intro h0; rw [h0] at hlen; simp at hlen
      obtain ⟨s, hs⟩ := Option.isSome_iff_exists.mp
        (List.getLast?_isSome.mpr (by rw [Ne, sortSnapshots_eq_nil]; exact hne)
          : (sortSnapshots snaps).getLast?.isSome)
      have hms : mostRecentClusterSnapshot snaps = some s := hs
      have hsel : selectClusterSnapshot snaps env.mostRecent = .ok s := by
        rw [hrec]
        unfold selectClusterSnapshot
        rw [if_pos hlen, if_pos rfl, hms]
      rw [hok s hsel, hms]
    · intro hrec
      have hsel : selectClusterSnapshot snaps env.mostRecent =
          .error "Your query returned more than one result. Please try a more specific search criteria." := by
        rw [hrec]
        unfold selectClusterSnapshot
        rw [if_pos hlen]
        rfl
      exact herr _ hsel
  · intro hlen1
    have hnl : ¬ snaps.length < 1 := by omega
    obtain ⟨herr, hok⟩ := dataSourceRead_cases env snaps hid hdesc hnl
    cases snaps with
    | nil => simp at hlen1
    | cons s rest =>
      cases rest with
      | nil =>
        have hsel : selectClusterSnapshot [s] env.mostRecent = .ok s := by
          unfold selectClusterSnapshot
          rw [if_neg (by simp)]
          rfl
        rw [hok s hsel]
        rfl
      | cons b bs => simp at hlen1
  · intro hlen0
    have h0 : snaps = [] := by
      cases snaps with
      | nil => rfl
      | cons a as => simp at hlen0
    subst h0
    unfold dataSourceClusterSnapshotRead
    rw [hdesc, hid]
    simp only [Bool.false_eq_true, if_false]
    rfl

/-- Witness for C3 at a concrete two-snapshot environment with
`most_recent` set. -/
theorem C3_witness :
    (dataSourceClusterSnapshotRead
        ⟨some "cluster-1", none, true,
          .ok [⟨some "early", some 1⟩, ⟨some "late", some 5⟩], .ok []⟩).selected =
      mostRecentClusterSnapshot
        [⟨some "early", some 1⟩, ⟨some "late", some 5⟩] :=
  ((C3_dataSourceClusterSnapshotRead_selection
      ⟨some "cluster-1", none, true,
        .ok [⟨some "early", some 1⟩, ⟨some "late", some 5⟩], .ok []⟩
      [⟨some "early", some 1⟩, ⟨some "late", some 5⟩]
      (Or.inl rfl) rfl).1 (by decide)).1 rfl

/-- Witness for C9: the most-recent pick is a member of the list, and
under the more-than-one guard it is defined. -/
theorem C9_witness :
    (⟨some "late", some 5⟩ : DBClusterSnapshot) ∈
      ([⟨some "early", some 1⟩, ⟨some "late", some 5⟩] :
        List DBClusterSnapshot) ∧
    (mostRecentClusterSnapshot
        [⟨some "early", some 1⟩, ⟨some "late", some 5⟩]).isSome = true :=
  ⟨C9_mostRecent_membership_and_guard.1
      [⟨some "early", some 1⟩, ⟨some "late", some 5⟩] ⟨some "late", some 5⟩ rfl,
    C9_mostRecent_membership_and_guard.2.2.2.1
      ⟨some "cluster-1", none, true,
        .ok [⟨some "early", some 1⟩, ⟨some "late", some 5⟩], .ok []⟩
      [⟨some "early", some 1⟩, ⟨some "late", some 5⟩] rfl (by decide)⟩

/-! ## Claim theorems: Elastic Beanstalk and EC2 -/

/-- C4: `FindConfigurationSettingsByTwoPartKey` classifies every call
result exactly as the spec states: not-found on the two
`InvalidParameterValue` message shapes, propagation of other API errors,
empty-result on nil/empty/nil-first output, too-many-results on more
than one, and the single description otherwise. -/
theorem C4_find_matches_spec
    (r : Except ApiError (Option DescribeConfigurationSettingsOutput)) :
    FindConfigurationSettingsByTwoPartKey r = findConfigurationSettingsSpec r := by
  cases r with
  | error e =>
    by_cases hc : e.code = "InvalidParameterValue" <;>
      by_cases hm1 : containsSubstr e.message "No Configuration Template named" = true <;>
      by_cases hm2 : containsSubstr e.message "No Application named" = true <;>
      simp [FindConfigurationSettingsByTwoPartKey, findConfigurationSettingsSpec,
        errMessageContains, hc, hm1, hm2]
  | ok o =>
    cases o with
    | none => rfl
    | some output =>
      rcases output with ⟨cs⟩
      cases cs with
      | nil => rfl
      | cons hd tl =>
        cases hd with
        | none => rfl
        | some first =>
          cases tl with
          | nil => rfl
          | cons b bs =>
            have h1 : (b :: bs).length + 1 > 1 := by
              simp [List.length_cons]
            have h2 : ¬ (b :: bs).length = 0 := by simp
            simp [FindConfigurationSettingsByTwoPartKey,
              findConfigurationSettingsSpec, errMessageContains, h1, h2]

/-- C5: when the setting field changed and the validation call fails,
the option-settings updater has issued exactly the one validation call
on the full gathered set, propagates the error, and never issues the
`UpdateConfigurationTemplate` call. -/
theorem C5_validate_gates_update (env : OptionSettingsUpdateEnv) (e : ApiError)
    (hchange : env.hasChangeSetting = true) (hval : env.validateResult = some e) :
    resourceConfigurationTemplateOptionSettingsUpdate env =
      ([.validateConfigurationSettings env.gathered], some e) ∧
    (resourceConfigurationTemplateOptionSettingsUpdate env).1.any
      EBCall.isUpdateTemplate = false := by
  have h : resourceConfigurationTemplateOptionSettingsUpdate env =
      ([.validateConfigurationSettings env.gathered], some e) := by
    unfold resourceConfigurationTemplateOptionSettingsUpdate
    rw [hchange, hval]
    rfl
  exact ⟨h, by rw [h]; rfl⟩

/-- Witness for C5 at a concrete failing validation. -/
theorem C5_witness :
    resourceConfigurationTemplateOptionSettingsUpdate
        ⟨true, [⟨some "ns-a", some "opt-x", some "1"⟩], [],
          [⟨some "ns-a", some "opt-x", some "1"⟩],
          some ⟨"InvalidParameterValue", "bad option"⟩, none⟩ =
      ([.validateConfigurationSettings [⟨some "ns-a", some "opt-x", some "1"⟩]],
        some ⟨"InvalidParameterValue", "bad option"⟩) ∧
    (resourceConfigurationTemplateOptionSettingsUpdate
        ⟨true, [⟨some "ns-a", some "opt-x", some "1"⟩], [],
          [⟨some "ns-a", some "opt-x", some "1"⟩],
          some ⟨"InvalidParameterValue", "bad option"⟩, none⟩).1.any
      EBCall.isUpdateTemplate = false :=
  C5_validate_gates_update
    ⟨true, [⟨some "ns-a", some "opt-x", some "1"⟩], [],
      [⟨some "ns-a", some "opt-x", some "1"⟩],
      some ⟨"InvalidParameterValue", "bad option"⟩, none⟩
    ⟨"InvalidParameterValue", "bad option"⟩ rfl rfl

/-- C6: when the provider create/accept call errors, both create
handlers append exactly the error diagnostic and leave the resource
state (in particular the id) unchanged. -/
theorem C6_create_error_atomicity :
    (∀ (env : ConfigurationTemplateCreateEnv) (s : ResourceState) (e : ApiError),
      env.createResult = some e →
      resourceConfigurationTemplateCreate env s =
        (s, ["creating Elastic Beanstalk configuration template: " ++ e.message])) ∧
    (∀ (env : AccepterCreateEnv) (s : ResourceState) (e : ApiError),
      env.acceptResult = .error e →
      resourceTransitGatewayPeeringAttachmentAccepterCreate env s =
        (s, ["accepting EC2 Transit Gateway Peering Attachment: " ++ e.message])) := by
  constructor
  · intro env s e h
    unfold resourceConfigurationTemplateCreate
    rw [h]
  · intro env s e h
    unfold resourceTransitGatewayPeeringAttachmentAccepterCreate
    rw [h]

/-- Witness for C6 at concrete failing create calls. -/
theorem C6_witness :
    resourceConfigurationTemplateCreate
        ⟨"tmpl", some ⟨"InternalFailure", "boom"⟩, []⟩ ⟨none⟩ =
      (⟨none⟩, ["creating Elastic Beanstalk configuration template: boom"]) ∧
    resourceTransitGatewayPeeringAttachmentAccepterCreate
        ⟨"tgw-attach-1", .error ⟨"InternalFailure", "boom"⟩, none, [], none, []⟩
        ⟨none⟩ =
      (⟨none⟩, ["accepting EC2 Transit Gateway Peering Attachment: boom"]) :=
  ⟨C6_create_error_atomicity.1 ⟨"tmpl", some ⟨"InternalFailure", "boom"⟩, []⟩
      ⟨none⟩ ⟨"InternalFailure", "boom"⟩ rfl,
    C6_create_error_atomicity.2
      ⟨"tgw-attach-1", .error ⟨"InternalFailure", "boom"⟩, none, [], none, []⟩
      ⟨none⟩ ⟨"InternalFailure", "boom"⟩ rfl⟩

/-- Counterexample to C7 as stated: in this update the setting field has
changed, yet because the description update errors first, no call of the
option-settings update step is ever issued — refuting "the
option-settings update [is issued] if and only if the setting
changed". -/
theorem C7_counterexample :
    ((⟨true, "d", some ⟨"InternalFailure", "boom"⟩,
        ⟨true, [], [], [], none, none⟩⟩ :
      ConfigurationTemplateUpdateEnv).osEnv.hasChangeSetting = true) ∧
    (resourceConfigurationTemplateUpdate
        ⟨true, "d", some ⟨"InternalFailure", "boom"⟩,
          ⟨true, [], [], [], none, none⟩⟩).1.any
      EBCall.isOptionSettingsStep = false := by
  decide

/-- C7 (amended): with neither field changed the update issues only the
read-back; the description-update call is issued iff the description
changed; the option-settings update step is issued iff the setting
changed and the description update, when issued, succeeded. -/
theorem C7_amended_update_calls (env : ConfigurationTemplateUpdateEnv) :
    (env.hasChangeDescription = false → env.osEnv.hasChangeSetting = false →
      (resourceConfigurationTemplateUpdate env).1 = [.readBack]) ∧
    ((resourceConfigurationTemplateUpdate env).1.any
        EBCall.isDescriptionUpdate = true ↔
      env.hasChangeDescription = true) ∧
    ((resourceConfigurationTemplateUpdate env).1.any
        EBCall.isOptionSettingsStep = true ↔
      (env.osEnv.hasChangeSetting = true ∧
        (env.hasChangeDescription = true → env.descriptionUpdateResult = none))) := by
  obtain ⟨hd, d, dres, hcs, g, o, n, vres, ures⟩ := env
  cases hd <;> cases dres <;> cases hcs <;> cases vres <;> cases ures <;>
    simp [resourceConfigurationTemplateUpdate,
      resourceConfigurationTemplateDescriptionUpdate,
      resourceConfigurationTemplateOptionSettingsUpdate,
      EBCall.isDescriptionUpdate, EBCall.isOptionSettingsStep]

/-- Witness for the amended C7 at a no-change update. -/
theorem C7_witness :
    (resourceConfigurationTemplateUpdate
        ⟨false, "", none, ⟨false, [], [], [], none, none⟩⟩).1 =
      [EBCall.readBack] :=
  (C7_amended_update_calls
    ⟨false, "", none, ⟨false, [], [], [], none, none⟩⟩).1 rfl rfl

/-- C10: when the delete call fails with the corresponding not-found
code, both transit-gateway delete handlers return success with no
diagnostics and without the wait-for-deletion step. -/
theorem C10_delete_idempotent :
    (∀ (env : DeleteEnv) (e : ApiError), env.deleteResult = some e →
      e.code = errCodeInvalidTransitGatewayAttachmentIDNotFound →
      resourceTransitGatewayPeeringAttachmentAccepterDelete env =
        ([.deleteCall], [])) ∧
    (∀ (env : DeleteEnv) (e : ApiError), env.deleteResult = some e →
      e.code = errCodeInvalidRouteTableIDNotFound →
      resourceTransitGatewayRouteTableDelete env = ([.deleteCall], [])) := by
  constructor
  · intro env e h hc
    have hcond : errCodeEquals env.deleteResult
        errCodeInvalidTransitGatewayAttachmentIDNotFound = true := by
      unfold errCodeEquals
      rw [h]
      simp [hc]
    unfold resourceTransitGatewayPeeringAttachmentAccepterDelete
    rw [if_pos hcond]
  · intro env e h hc
    have hcond : errCodeEquals env.deleteResult
        errCodeInvalidRouteTableIDNotFound = true := by
      unfold errCodeEquals
      rw [h]
      simp [hc]
    unfold resourceTransitGatewayRouteTableDelete
    rw [if_pos hcond]

/-- Witness for C10 at concrete not-found delete results. -/
theorem C10_witness :
    resourceTransitGatewayPeeringAttachmentAccepterDelete
        ⟨some ⟨"InvalidTransitGatewayAttachmentID.NotFound", "gone"⟩, none⟩ =
      ([.deleteCall], []) ∧
    resourceTransitGatewayRouteTableDelete
        ⟨some ⟨"InvalidRouteTableID.NotFound", "gone"⟩, none⟩ =
      ([.deleteCall], []) :=
  ⟨C10_delete_idempotent.1
      ⟨some ⟨"InvalidTransitGatewayAttachmentID.NotFound", "gone"⟩, none⟩
      ⟨"InvalidTransitGatewayAttachmentID.NotFound", "gone"⟩ rfl rfl,
    C10_delete_idempotent.2
      ⟨some ⟨"InvalidRouteTableID.NotFound", "gone"⟩, none⟩
      ⟨"InvalidRouteTableID.NotFound", "gone"⟩ rfl rfl⟩

/-- C1: evaluation of the remove/add plan at failing inputs. Removing a
setting with nothing added yields an empty OptionsToRemove source list
(the nested loop never runs), and two non-matching additions duplicate
the single removal — while the filtered set difference the claim (and the
code's own comment) describes keeps the removed setting exactly once. -/
theorem C1_remove_loop_eval :
    optionSettingsUpdatePlan [⟨some "ns-a", some "opt-x", some "1"⟩] [] =
      ([], []) ∧
    specOptionsToRemove
        (setDifference [⟨some "ns-a", some "opt-x", some "1"⟩] [])
        (setDifference [] [⟨some "ns-a", some "opt-x", some "1"⟩]) =
      [⟨some "ns-a", some "opt-x", some "1"⟩] ∧
    optionSettingsUpdatePlan [⟨some "ns-a", some "opt-x", some "1"⟩]
        [⟨some "ns-b", some "opt-y", some "2"⟩,
          ⟨some "ns-c", some "opt-z", some "3"⟩] =
      ([⟨some "ns-a", some "opt-x", some "1"⟩,
          ⟨some "ns-a", some "opt-x", some "1"⟩],
        [⟨some "ns-b", some "opt-y", some "2"⟩,
          ⟨some "ns-c", some "opt-z", some "3"⟩]) := by
  decide
